import Mathlib

/-!
Shallow embedding of the session-based authentication and organization
scoping layer of the accounting web application: the login, logout,
register, auth/current, dashboard, report-list and user-management route
handlers, together with the session store semantics they rely on.

Database rows are modelled as records, tables as lists, and each Express
route handler as a function from the database (and, where the handler
reads it, the request session) to an HTTP response, possibly paired with
the updated database or session. JavaScript `undefined`/SQL NULL values
of request fields and nullable columns are modelled with `Option`.
-/

/-- Row of the `organizations` table: `id` (serial) and `name`. -/
structure Organization where
  id : Nat
  name : String
deriving DecidableEq, Repr

/-- Row of the `users` table. `organization_id`, `password` and `role`
are nullable: the unauthenticated user-management POST route inserts
rows with only `name` and `email`, leaving the other columns NULL, and
the registration insert never sets `role`. `password` stores the bcrypt
hash. -/
structure UserRow where
  id : Nat
  organization_id : Option Nat
  name : String
  email : String
  password : Option String
  role : Option String
deriving DecidableEq, Repr

/-- Row of the `orders` table queried by the dashboard data route. Only
`organization_id` matters to the claims; `amount` stands for the
remaining payload columns of this externally owned table. -/
structure OrderRow where
  id : Nat
  organization_id : Nat
  amount : Int
deriving DecidableEq, Repr

/-- Row of the `reports` table queried by the report list route. The
schema is externally owned; per the specification every
organization-scoped resource carries an `organization_id` column, and
the route orders by `created_at`. -/
structure ReportRow where
  id : Nat
  organization_id : Nat
  created_at : Nat
  url : String
deriving DecidableEq, Repr

/-- The denormalized user snapshot stored in the session at login time:
exactly the five fields the login handler copies out of the user row. -/
structure SessionUser where
  id : Nat
  name : String
  email : String
  organization_id : Option Nat
  role : Option String
deriving DecidableEq, Repr

/-- Database state: the four tables touched by the modelled routes, plus
the serial-sequence counters used to assign fresh `id`s on insert. -/
structure DB where
  orgSeq : Nat
  userSeq : Nat
  organizations : List Organization
  users : List UserRow
  orders : List OrderRow
  reports : List ReportRow
deriving DecidableEq, Repr

/-- The view of the user returned by GET /api/auth/current: the five
snapshot fields plus the organization name re-read from the database. -/
structure UserView where
  id : Nat
  name : String
  email : String
  organization_id : Option Nat
  role : Option String
  organization_name : String
deriving DecidableEq, Repr

/-- JSON response bodies produced by the modelled routes. -/
inductive Body where
  | err (message : String)
  | msg (message : String)
  | userRows (rows : List UserRow)
  | userRow (row : UserRow)
  | orderRows (rows : List OrderRow)
  | reportRows (rows : List ReportRow)
  | userView (u : UserView)
  | empty
deriving DecidableEq, Repr

/-- An HTTP response: status code and JSON body. -/
structure Response where
  status : Nat
  body : Body
deriving DecidableEq, Repr

/-- The 401 response `res.status(401).json(error Unauthorized)` shared
by `ensureAuthenticated` and the /api/auth/current handler. -/
def unauthorized : Response := ⟨401, .err "Unauthorized"⟩

/-- The generic 500 response `res.status(500).json(error Server error)`
produced by the catch blocks of the login, register and auth routes. -/
def serverError : Response := ⟨500, .err "Server error"⟩

/-- Modelled bcrypt: `bcrypt.hash(p, 10)` produces a salted hash that
`bcrypt.compare` later matches exactly against the originating
password. Only the compare-equality behaviour is observable to the
routes, so hashing is modelled as an injective tagging function. -/
def bcryptHash (p : String) : String := "bcrypt-2b-10-" ++ p

/-- Modelled `bcrypt.compare plain storedHash`: true exactly when the
stored hash was produced from `plain`. -/
def bcryptCompare (plain storedHash : String) : Bool :=
  storedHash == bcryptHash plain

/-- Insertion step of the sort used to model SQL ORDER BY. -/
def insertLe {α : Type} (le : α → α → Bool) (a : α) : List α → List α
  | [] => [a]
  | b :: l => if le a b then a :: b :: l else b :: insertLe le a l

/-- Insertion sort with an explicit comparison, modelling ORDER BY. -/
def insertSortBy {α : Type} (le : α → α → Bool) : List α → List α
  | [] => []
  | a :: l => insertLe le a (insertSortBy le l)

/-- ORDER BY id ASC over user rows (GET /api/users). -/
def orderByIdAsc (l : List UserRow) : List UserRow :=
  insertSortBy (fun a b => a.id ≤ b.id) l

/-- ORDER BY created_at DESC over report rows (GET /api/report/list). -/
def orderByCreatedAtDesc (l : List ReportRow) : List ReportRow :=
  insertSortBy (fun a b => b.created_at ≤ a.created_at) l

/-- The server-side session store of express-session: a map from the
opaque cookie identifier to the stored session user snapshot. -/
abbrev SessionStore := List (String × SessionUser)

/-- Resolution of a request cookie against the session store, yielding
`req.session.user` (none when the record is absent or has no user). -/
def sessionOf (st : SessionStore) (sid : String) : Option SessionUser :=
  (st.find? (fun kv => kv.fst == sid)).map (fun kv => kv.snd)

/-- Effect of `req.session.destroy` on the store: the record keyed by
the request cookie identifier is removed. -/
def destroySession (st : SessionStore) (sid : String) : SessionStore :=
  st.filter (fun kv => !(kv.fst == sid))

/-- The authorization middleware of the dashboard routes: forwards to
the wrapped handler when `req.session.user` is populated, otherwise
responds 401 Unauthorized without invoking the handler. -/
def ensureAuthenticated (sess : Option SessionUser)
    (handler : SessionUser → Response) : Response :=
  match sess with
  | some u => handler u
  | none => unauthorized

/-- Handler body of GET /api/dashboard/data: selects the orders whose
`organization_id` equals the session organization id. A NULL session
organization id compares with no row (SQL NULL equality). -/
def dashboardData (db : DB) (u : SessionUser) : Response :=
  ⟨200, .orderRows (db.orders.filter
    (fun o => some o.organization_id == u.organization_id))⟩

/-- GET /api/dashboard/data: `ensureAuthenticated` wrapping the data
handler. -/
def dashboardDataRoute (db : DB) (sess : Option SessionUser) : Response :=
  ensureAuthenticated sess (fun u => dashboardData db u)

/-- POST /api/logout: destroys the session record of the request cookie
and clears the cookie; responds 500 with error "Logout failed" when the
store cannot remove the record (`destroyFails`). -/
def logoutRoute (st : SessionStore) (sid : String) (destroyFails : Bool) :
    Response × SessionStore :=
  if destroyFails then (⟨500, .err "Logout failed"⟩, st)
  else (⟨200, .msg "Logged out successfully"⟩, destroySession st sid)

/-- POST /api/login. Request fields are `Option String` (absent fields
are `none`); the falsy test of the handler rejects both absent and
empty fields. On success the session user is overwritten with the
denormalized snapshot of the found user row; on failure the session is
left unchanged. A NULL stored password makes `bcrypt.compare` throw,
which the catch block converts to a 500 response. -/
def loginRoute (db : DB) (sess : Option SessionUser)
    (email password : Option String) : Response × Option SessionUser :=
  match email, password with
  | some em, some pw =>
    if em = "" ∨ pw = "" then
      (⟨400, .err "Email & password required"⟩, sess)
    else
      match db.users.find? (fun u => u.email == em) with
      | none => (⟨400, .err "Invalid credentials"⟩, sess)
      | some user =>
        match user.password with
        | none => (serverError, sess)
        | some stored =>
          if bcryptCompare pw stored then
            (⟨200, .msg "Login successful"⟩,
             some ⟨user.id, user.name, user.email, user.organization_id,
                   user.role⟩)
          else (⟨400, .err "Invalid credentials"⟩, sess)
  | _, _ => (⟨400, .err "Email & password required"⟩, sess)

/-- GET /api/auth/current: 401 without a session user; otherwise the
organization name is re-read from the `organizations` table by the
session organization id. When no organization row matches, the handler
dereferences an undefined row and the catch block yields 500. -/
def authCurrent (db : DB) (sess : Option SessionUser) : Response :=
  match sess with
  | none => unauthorized
  | some u =>
    match db.organizations.find? (fun o => some o.id == u.organization_id) with
    | none => serverError
    | some org =>
      ⟨200, .userView ⟨u.id, u.name, u.email, u.organization_id, u.role,
                       org.name⟩⟩

/-- POST /api/register. The `fails` oracle tells, for each of the four
database queries in program order (0 = organization SELECT, 1 = email
SELECT, 2 = organization INSERT, 3 = user INSERT), whether the database
raises an error at that query; an error is caught and yields the 500
response, keeping the effects of the queries already executed. Returns
the response together with the resulting database state. -/
def registerRoute (db : DB)
    (businessName userName email password confirmPassword : Option String)
    (fails : Nat → Bool) : Response × DB :=
  match businessName, userName, email, password, confirmPassword with
  | some bn, some un, some em, some pw, some cpw =>
    if bn = "" ∨ un = "" ∨ em = "" ∨ pw = "" ∨ cpw = "" then
      (⟨400, .err "All fields are required"⟩, db)
    else if pw ≠ cpw then
      (⟨400, .err "Passwords do not match"⟩, db)
    else if fails 0 then (serverError, db)
    else if db.organizations.any (fun o => o.name == bn) then
      (⟨400, .err "Business name already exists"⟩, db)
    else if fails 1 then (serverError, db)
    else if db.users.any (fun u => u.email == em) then
      (⟨400, .err "Email already exists"⟩, db)
    else if fails 2 then (serverError, db)
    else
      let orgId := db.orgSeq
      let db1 : DB := { db with
        orgSeq := db.orgSeq + 1,
        organizations := db.organizations ++ [⟨orgId, bn⟩] }
      if fails 3 then (serverError, db1)
      else
        (⟨201, .msg "Registration successful"⟩,
         { db1 with
           userSeq := db1.userSeq + 1,
           users := db1.users ++
             [⟨db1.userSeq, some orgId, un, em, some (bcryptHash pw), none⟩] })
  | _, _, _, _, _ => (⟨400, .err "All fields are required"⟩, db)

/-- The failure oracle of a normally functioning database: no query
raises. -/
def noFail : Nat → Bool := fun _ => false

/-- The failure oracle in which exactly the user INSERT (query 3 of the
registration handler) raises. -/
def userInsertFails : Nat → Bool := fun i => i == 3

/-- GET /api/users: returns every user row ordered by id, with no
session check and no organization filter. The session argument records
what the middleware would hand the route; the handler ignores it. -/
def usersGet (db : DB) (sess : Option SessionUser) : Response :=
  ⟨200, .userRows (orderByIdAsc db.users)⟩

/-- POST /api/users: inserts a row with only `name` and `email` set
(NULL organization, password and role), with no session check. -/
def usersPost (db : DB) (sess : Option SessionUser) (name email : String) :
    Response × DB :=
  let row : UserRow := ⟨db.userSeq, none, name, email, none, none⟩
  (⟨200, .userRow row⟩,
   { db with userSeq := db.userSeq + 1, users := db.users ++ [row] })

/-- PUT /api/users/:id: updates `name` and `email` of every row whose
id matches, with no session check and no organization filter; responds
with the first updated row, or an empty body when none matched. -/
def usersPut (db : DB) (sess : Option SessionUser) (id : Nat)
    (name email : String) : Response × DB :=
  let updated := db.users.map
    (fun u => if u.id == id then { u with name := name, email := email } else u)
  let rows := updated.filter (fun u => u.id == id)
  (⟨200, match rows.head? with
         | some r => .userRow r
         | none => .empty⟩,
   { db with users := updated })

/-- DELETE /api/users/:id: deletes every row whose id matches, with no
session check and no organization filter. -/
def usersDelete (db : DB) (sess : Option SessionUser) (id : Nat) :
    Response × DB :=
  (⟨200, .msg "User deleted"⟩,
   { db with users := db.users.filter (fun u => !(u.id == id)) })

/-- GET /api/report/list: returns every report row ordered by
created_at descending, with no session check and no organization
filter. The ignored session argument records what Express would expose
to the handler. -/
def reportsList (db : DB) (sess : Option SessionUser) : Response :=
  ⟨200, .reportRows (orderByCreatedAtDesc db.reports)⟩

/-- Inserting with `insertLe` permutes to consing. -/
theorem insertLe_perm {α : Type} (le : α → α → Bool) (a : α) (l : List α) :
    (insertLe le a l).Perm (a :: l) := by
  induction l with
  | nil => exact List.Perm.refl _
  | cons b t ih =>
    unfold insertLe
    by_cases h : le a b = true
    · simp [h]
    · simp only [h, if_false]
      exact (List.Perm.cons b ih).trans (List.Perm.swap a b t)

/-- The ORDER BY model returns a permutation of the table rows. -/
theorem insertSortBy_perm {α : Type} (le : α → α → Bool) (l : List α) :
    (insertSortBy le l).Perm l := by
  induction l with
  | nil => exact List.Perm.refl _
  | cons a t ih =>
    unfold insertSortBy
    exact (insertLe_perm le a (insertSortBy le t)).trans (List.Perm.cons a ih)

/-- After destroying the session of a cookie identifier, resolving that
identifier against the store yields no session user. -/
theorem sessionOf_destroy (st : SessionStore) (sid : String) :
    sessionOf (destroySession st sid) sid = none := by
  induction st with
  | nil => rfl
  | cons kv t ih =>
    unfold destroySession at ih ⊢
    cases h : kv.fst == sid with
    | true => simpa [List.filter, h] using ih
    | false => simpa [List.filter, sessionOf, List.find?, h] using ih

/-- User row of Alice, member of organization 1, registered with
password secret123. -/
def aliceRow : UserRow :=
  ⟨1, some 1, "Alice", "a@acme.com", some (bcryptHash "secret123"), none⟩

/-- User row of Bob, member of organization 2. -/
def bobRow : UserRow :=
  ⟨2, some 2, "Bob", "b@beta.com", some (bcryptHash "hunter2"), none⟩

/-- A concrete database with two organizations, one user, one order and
one report in each organization. -/
def db2orgs : DB :=
  ⟨3, 3, [⟨1, "Acme"⟩, ⟨2, "Beta"⟩], [aliceRow, bobRow],
   [⟨1, 1, 5⟩, ⟨2, 2, 7⟩], [⟨1, 1, 10, "r1"⟩, ⟨2, 2, 20, "r2"⟩]⟩

/-- The session snapshot the login route stores for Alice. -/
def snapAlice : SessionUser := ⟨1, "Alice", "a@acme.com", some 1, none⟩

/-- C3: for every request whose session is absent or whose session user
field is null, the authorization middleware responds 401 Unauthorized
and the wrapped handler is never invoked (the response is the 401
response whatever the handler is); for every request with a populated
session user, control is forwarded to the handler with the denormalized
session user snapshot. -/
theorem ensureAuthenticated_gate (sess : Option SessionUser) :
    (sess = none → ∀ handler : SessionUser → Response,
        ensureAuthenticated sess handler = unauthorized) ∧
    (∀ u : SessionUser, sess = some u → ∀ handler : SessionUser → Response,
        ensureAuthenticated sess handler = handler u) := by
  constructor
  · intro h handler; subst h; rfl
  · intro u h handler; subst h; rfl

/-- Witness for C3 at a concrete session and handler. -/
theorem ensureAuthenticated_gate_witness :
    ensureAuthenticated none (fun u => dashboardData db2orgs u) = unauthorized ∧
    ensureAuthenticated (some snapAlice) (fun u => dashboardData db2orgs u)
      = dashboardData db2orgs snapAlice :=
  ⟨(ensureAuthenticated_gate none).1 rfl _,
   (ensureAuthenticated_gate (some snapAlice)).2 snapAlice rfl _⟩

/-- C4: every registration request in which password differs from
confirmPassword is answered with HTTP 400 and leaves the database
unchanged: no Organization row and no User row is created, whatever
the database failure behaviour. -/
theorem register_password_mismatch (db : DB) (fails : Nat → Bool)
    (businessName userName email password confirmPassword : Option String)
    (hne : password ≠ confirmPassword) :
    (registerRoute db businessName userName email password confirmPassword
        fails).fst.status = 400 ∧
    (registerRoute db businessName userName email password confirmPassword
        fails).snd = db := by
  rcases businessName with _ | bn <;> rcases userName with _ | un <;>
    rcases email with _ | eml <;> rcases password with _ | pw <;>
    rcases confirmPassword with _ | cpw <;>
    simp only [registerRoute] <;> try exact ⟨trivial, trivial⟩
  have hpc : pw ≠ cpw := by
    intro h; exact hne (by rw [h])
  by_cases h1 : (bn = "" ∨ un = "" ∨ eml = "" ∨ pw = "" ∨ cpw = "")
  · simp [h1]
  · simp [h1, hpc]

/-- Witness for C4 at a concrete mismatched registration request. -/
theorem register_password_mismatch_witness :
    (registerRoute db2orgs (some "New") (some "Nora") (some "n@x.com")
        (some "a") (some "b") noFail).fst.status = 400 ∧
    (registerRoute db2orgs (some "New") (some "Nora") (some "n@x.com")
        (some "a") (some "b") noFail).snd = db2orgs :=
  register_password_mismatch db2orgs noFail (some "New") (some "Nora")
    (some "n@x.com") (some "a") (some "b") (by decide)

/-- C5: every registration request whose businessName equals, by
case-sensitive exact match, the name of an existing Organization is
rejected with HTTP 400 and creates no new Organization row. -/
theorem register_duplicate_org (db : DB) (bn : String)
    (userName email password confirmPassword : Option String)
    (hdup : ∃ org ∈ db.organizations, org.name = bn) :
    (registerRoute db (some bn) userName email password confirmPassword
        noFail).fst.status = 400 ∧
    (registerRoute db (some bn) userName email password confirmPassword
        noFail).snd.organizations = db.organizations := by
  have hany : db.organizations.any (fun o => o.name == bn) = true := by
    rcases hdup with ⟨org, hmem, hname⟩
    exact List.any_eq_true.mpr ⟨org, hmem, by simp [hname]⟩
  rcases userName with _ | un <;> rcases email with _ | eml <;>
    rcases password with _ | pw <;> rcases confirmPassword with _ | cpw <;>
    simp only [registerRoute] <;> try exact ⟨trivial, trivial⟩
  by_cases h1 : (bn = "" ∨ un = "" ∨ eml = "" ∨ pw = "" ∨ cpw = "")
  · simp [h1]
  · by_cases h2 : pw = cpw
    · simp [h1, h2, noFail, hany]
      split <;> exact ⟨rfl, rfl⟩
    · simp [h1, h2]

/-- Witness for C5 at a concrete request reusing the name Acme. -/
theorem register_duplicate_org_witness :
    (registerRoute db2orgs (some "Acme") (some "Carol") (some "c@x.com")
        (some "pw123") (some "pw123") noFail).fst.status = 400 ∧
    (registerRoute db2orgs (some "Acme") (some "Carol") (some "c@x.com")
        (some "pw123") (some "pw123") noFail).snd.organizations
      = db2orgs.organizations :=
  register_duplicate_org db2orgs "Acme" (some "Carol") (some "c@x.com")
    (some "pw123") (some "pw123") (by decide)

/-- C7: a successful logout destroys the session record of the request
cookie server-side, so every subsequent protected request presenting
the old cookie resolves to no session user and is answered 401
Unauthorized by the authorization middleware, whatever the wrapped
handler; the old cookie never grants access again. -/
theorem logout_destroys_session (st : SessionStore) (sid : String) (b : Bool)
    (hok : (logoutRoute st sid b).fst.status = 200) :
    sessionOf (logoutRoute st sid b).snd sid = none ∧
    ∀ handler : SessionUser → Response,
      ensureAuthenticated (sessionOf (logoutRoute st sid b).snd sid) handler
        = unauthorized := by
  cases b with
  | true => simp [logoutRoute] at hok
  | false =>
    have h : sessionOf (logoutRoute st sid false).snd sid = none := by
      simpa [logoutRoute] using sessionOf_destroy st sid
    refine ⟨h, fun handler => ?_⟩
    rw [h]
    rfl

/-- Witness for C7 at a concrete store and cookie. -/
theorem logout_destroys_session_witness :
    sessionOf (logoutRoute [("c1", snapAlice)] "c1" false).snd "c1" = none :=
  (logout_destroys_session [("c1", snapAlice)] "c1" false (by decide)).1

/-- C9: the user-management routes perform no session check and no
organization scoping: for every session (present or absent) GET
returns every user row of every organization ordered by id, and the
POST, PUT and DELETE handlers behave identically whatever the session;
DELETE removes the rows with the given id whatever organization they
belong to. -/
theorem userRoutes_unscoped :
    ∀ (db : DB) (sess : Option SessionUser) (n e : String) (i : Nat),
      usersGet db sess = ⟨200, .userRows (orderByIdAsc db.users)⟩ ∧
      (orderByIdAsc db.users).Perm db.users ∧
      usersPost db sess n e = usersPost db none n e ∧
      usersPut db sess i n e = usersPut db none i n e ∧
      usersDelete db sess i = usersDelete db none i ∧
      (usersDelete db sess i).snd.users
        = db.users.filter (fun u => !(u.id == i)) := by
  intro db sess n e i
  exact ⟨rfl, insertSortBy_perm _ _, rfl, rfl, rfl, rfl⟩

/-- C10: the organization_name field of the current-session response is
not part of the login snapshot: it is read from the organizations table
of the database state at request time, so the response reflects the
current name of the organization row matched by the session
organization id; and when no organization row matches, the endpoint
responds HTTP 500 rather than returning a user object. -/
theorem authCurrent_org_name_reread (db : DB) (snap : SessionUser) :
    (∀ org : Organization,
       db.organizations.find? (fun o => some o.id == snap.organization_id)
         = some org →
       authCurrent db (some snap) =
         ⟨200, .userView ⟨snap.id, snap.name, snap.email,
                          snap.organization_id, snap.role, org.name⟩⟩) ∧
    (db.organizations.find? (fun o => some o.id == snap.organization_id)
       = none →
     authCurrent db (some snap) = serverError) := by
  constructor
  · intro org h
    simp [authCurrent, h]
  · intro h
    simp [authCurrent, h]

/-- Witness for C10: with the Acme row present the current name is
returned; with an empty organizations table the endpoint yields 500. -/
theorem authCurrent_org_name_reread_witness :
    authCurrent db2orgs (some snapAlice) =
      ⟨200, .userView ⟨snapAlice.id, snapAlice.name, snapAlice.email,
                       snapAlice.organization_id, snapAlice.role,
                       (⟨1, "Acme"⟩ : Organization).name⟩⟩ ∧
    authCurrent { db2orgs with organizations := [] } (some snapAlice)
      = serverError :=
  ⟨(authCurrent_org_name_reread db2orgs snapAlice).1 ⟨1, "Acme"⟩ (by decide),
   (authCurrent_org_name_reread { db2orgs with organizations := [] }
      snapAlice).2 (by decide)⟩

/-- A later database state in which the user rows present at login have
been modified (here: all removed); the organization rows remain. -/
def dbUsersChanged : DB := { db2orgs with users := [] }

/-- C6: after a successful login, the current-session endpoint answers
401 Unauthorized when no session accompanies the request, and with the
session cookie it returns exactly the denormalized snapshot captured at
login time in the fields id, name, email, organization_id and role,
whatever later database state the request sees (in particular whatever
happened to the users table since login); the snapshot is the user row
found at login. -/
theorem login_snapshot_current (db db2 : DB) (sess0 : Option SessionUser)
    (email password : Option String) (snap : SessionUser) (org : Organization)
    (hstatus : (loginRoute db sess0 email password).fst.status = 200)
    (hsnap : (loginRoute db sess0 email password).snd = some snap)
    (horg : db2.organizations.find? (fun o => some o.id == snap.organization_id)
              = some org) :
    authCurrent db2 none = unauthorized ∧
    authCurrent db2 (some snap) =
      ⟨200, .userView ⟨snap.id, snap.name, snap.email, snap.organization_id,
                       snap.role, org.name⟩⟩ ∧
    ∃ u ∈ db.users, snap = ⟨u.id, u.name, u.email, u.organization_id, u.role⟩ := by
  rcases email with _ | em2
  · simp [loginRoute] at hstatus
  rcases password with _ | pw
  · simp [loginRoute] at hstatus
  by_cases hemp : (em2 = "" ∨ pw = "")
  · simp [loginRoute, hemp] at hstatus
  cases hfind : db.users.find? (fun u => u.email == em2) with
  | none => simp [loginRoute, hemp, hfind] at hstatus
  | some user =>
    cases hpw : user.password with
    | none => simp [loginRoute, hemp, hfind, hpw, serverError] at hstatus
    | some stored =>
      by_cases hcmp : bcryptCompare pw stored = true
      · have hsnap2 : snap =
            ⟨user.id, user.name, user.email, user.organization_id, user.role⟩ := by
          simp [loginRoute, hemp, hfind, hpw, hcmp] at hsnap
          exact hsnap.symm
        refine ⟨rfl, ?_, user, List.mem_of_find?_eq_some hfind, hsnap2⟩
        simp [authCurrent, horg]
      · simp [loginRoute, hemp, hfind, hpw, hcmp] at hstatus

/-- Witness for C6: Alice logs in against `db2orgs`; the request then
hits a database whose users table has been emptied, and still receives
the login-time snapshot. -/
theorem login_snapshot_current_witness :
    authCurrent dbUsersChanged (some snapAlice) =
      ⟨200, .userView ⟨snapAlice.id, snapAlice.name, snapAlice.email,
                       snapAlice.organization_id, snapAlice.role,
                       (⟨1, "Acme"⟩ : Organization).name⟩⟩ :=
  (login_snapshot_current db2orgs dbUsersChanged none (some "a@acme.com")
    (some "secret123") snapAlice ⟨1, "Acme"⟩ (by decide) (by decide)
    (by decide)).2.1

/-- C8: the two registration inserts are not atomic: when the
organization INSERT succeeds and the user INSERT raises, the response
is the 500 server error, yet the new Organization row persists in the
resulting database state while no User row was added. -/
theorem register_non_atomic (db : DB) (bn un em2 pw : String)
    (hbn : bn ≠ "") (hun : un ≠ "") (hem : em2 ≠ "") (hpw : pw ≠ "")
    (horg : db.organizations.any (fun o => o.name == bn) = false)
    (hemail : db.users.any (fun u => u.email == em2) = false) :
    (registerRoute db (some bn) (some un) (some em2) (some pw) (some pw)
        userInsertFails).fst = serverError ∧
    (registerRoute db (some bn) (some un) (some em2) (some pw) (some pw)
        userInsertFails).snd.organizations
      = db.organizations ++ [⟨db.orgSeq, bn⟩] ∧
    (registerRoute db (some bn) (some un) (some em2) (some pw) (some pw)
        userInsertFails).snd.users = db.users := by
  have hemp : ¬(bn = "" ∨ un = "" ∨ em2 = "" ∨ pw = "" ∨ pw = "") := by
    simp [hbn, hun, hem, hpw]
  have h4 : ¬(bn = "" ∨ un = "" ∨ em2 = "" ∨ pw = "") := by
    simp [hbn, hun, hem, hpw]
  simp [registerRoute, hemp, h4, horg, hemail, userInsertFails]

/-- Witness for C8 at a concrete fresh registration whose user INSERT
raises. -/
theorem register_non_atomic_witness :
    (registerRoute db2orgs (some "Gamma") (some "Carol") (some "c@x.com")
        (some "pw123") (some "pw123") userInsertFails).fst = serverError ∧
    (registerRoute db2orgs (some "Gamma") (some "Carol") (some "c@x.com")
        (some "pw123") (some "pw123") userInsertFails).snd.organizations
      = db2orgs.organizations ++ [⟨db2orgs.orgSeq, "Gamma"⟩] ∧
    (registerRoute db2orgs (some "Gamma") (some "Carol") (some "c@x.com")
        (some "pw123") (some "pw123") userInsertFails).snd.users
      = db2orgs.users :=
  register_non_atomic db2orgs "Gamma" "Carol" "c@x.com" "pw123" (by decide)
    (by decide) (by decide) (by decide) (by decide) (by decide)

/-- Counterexample to C1: with the valid session obtained by Alice's
login (organization 1), the user-management list endpoint returns the
row of Bob, whose organization_id differs from the session
organization_id, so a row belonging to another organization is
returned by an organization-scoped list endpoint. -/
theorem usersGet_cross_tenant_leak :
    (loginRoute db2orgs none (some "a@acme.com") (some "secret123")).snd
      = some snapAlice ∧
    (usersGet db2orgs (some snapAlice)).body = .userRows [aliceRow, bobRow] ∧
    bobRow.organization_id ≠ snapAlice.organization_id := by decide

/-- C1 as amended: the dashboard data route does satisfy cross-tenant
isolation — every order row it returns has organization_id equal to the
session organization_id — but the user-management list route and the
report list route apply no organization filter: whatever the session,
they return every row of their table (ordered), including rows of other
organizations. -/
theorem orgScoping_per_route :
    (∀ (db : DB) (u : SessionUser) (l : List OrderRow) (o : OrderRow),
       (dashboardDataRoute db (some u)).body = .orderRows l → o ∈ l →
       some o.organization_id = u.organization_id) ∧
    (∀ (db : DB) (sess : Option SessionUser),
       (usersGet db sess).body = .userRows (orderByIdAsc db.users) ∧
       (orderByIdAsc db.users).Perm db.users) ∧
    (∀ (db : DB) (sess : Option SessionUser),
       (reportsList db sess).body
         = .reportRows (orderByCreatedAtDesc db.reports) ∧
       (orderByCreatedAtDesc db.reports).Perm db.reports) := by
  refine ⟨?_, ?_, ?_⟩
  · intro db u l o hbody hmem
    simp [dashboardDataRoute, ensureAuthenticated, dashboardData] at hbody
    subst hbody
    exact eq_of_beq (List.mem_filter.mp hmem).2
  · intro db sess
    exact ⟨rfl, insertSortBy_perm _ _⟩
  · intro db sess
    exact ⟨rfl, insertSortBy_perm _ _⟩

/-- Witness for the amended C1 at a concrete database and order row. -/
theorem orgScoping_per_route_witness :
    some ((⟨1, 1, 5⟩ : OrderRow).organization_id) = snapAlice.organization_id :=
  orgScoping_per_route.1 db2orgs snapAlice [⟨1, 1, 5⟩] ⟨1, 1, 5⟩
    (by decide) (by decide)

/-- Counterexample to C2: the attempt with Alice's registered email and
the wrong (empty) password and the attempt with an unregistered email
and a non-empty password both receive HTTP 400, but with different
error bodies, so the two responses are distinguishable. -/
theorem login_enumeration_body_mismatch :
    (db2orgs.users.find? (fun u => u.email == "a@acme.com")).isSome = true ∧
    bcryptCompare "" (bcryptHash "secret123") = false ∧
    db2orgs.users.find? (fun u => u.email == "ghost@x.com") = none ∧
    (loginRoute db2orgs none (some "a@acme.com") (some "")).fst.status = 400 ∧
    (loginRoute db2orgs none (some "ghost@x.com") (some "pw")).fst.status
      = 400 ∧
    (loginRoute db2orgs none (some "a@acme.com") (some "")).fst ≠
      (loginRoute db2orgs none (some "ghost@x.com") (some "pw")).fst := by
  decide

/-- C2 as amended: for every pair of login attempts that pass the
non-empty field validation, one with an email whose stored user row
carries a password hash that the supplied password does not match and
one with an email not registered at all, the two responses are
indistinguishable: both are HTTP 400 with body error Invalid
credentials. -/
theorem login_indistinguishable (db : DB) (sess1 sess2 : Option SessionUser)
    (e1 p1 e2 p2 : String) (u : UserRow) (stored : String)
    (he1 : e1 ≠ "") (hp1 : p1 ≠ "")
    (hfind1 : db.users.find? (fun w => w.email == e1) = some u)
    (hstored : u.password = some stored)
    (hwrong : bcryptCompare p1 stored = false)
    (he2 : e2 ≠ "") (hp2 : p2 ≠ "")
    (hfind2 : db.users.find? (fun w => w.email == e2) = none) :
    (loginRoute db sess1 (some e1) (some p1)).fst
      = ⟨400, .err "Invalid credentials"⟩ ∧
    (loginRoute db sess2 (some e2) (some p2)).fst
      = ⟨400, .err "Invalid credentials"⟩ := by
  constructor
  · simp [loginRoute, he1, hp1, hfind1, hstored, hwrong]
  · simp [loginRoute, he2, hp2, hfind2]

/-- Witness for the amended C2 at concrete attempts against db2orgs. -/
theorem login_indistinguishable_witness :
    (loginRoute db2orgs none (some "a@acme.com") (some "wrong")).fst
      = ⟨400, .err "Invalid credentials"⟩ ∧
    (loginRoute db2orgs none (some "ghost@x.com") (some "pw")).fst
      = ⟨400, .err "Invalid credentials"⟩ :=
  login_indistinguishable db2orgs none none "a@acme.com" "wrong"
    "ghost@x.com" "pw" aliceRow (bcryptHash "secret123") (by decide)
    (by decide) (by decide) (by decide) (by decide) (by decide) (by decide)
    (by decide)
